import Mathlib

/-!
Verification development for the cooperative user-level thread runtime
(src/A1/thread.c and src/A2/thread.c).  The scheduler data structures and
the six thread operations are shallowly embedded as executable Lean
functions; context switching (getcontext/setcontext) is made explicit by
returning either an immediate return value or a switch descriptor that
records the thread switched to and the value the suspended caller will
receive when it is later resumed.
-/

/-- Error and sentinel codes from thread.h.  Modelled from the spec:
thread.h is not part of the sources; the spec's call-surface table only
requires the sentinels (any, self) and the failure codes to be distinct
values outside the identifier range, so they are fixed as distinct
negative integers. -/
def THREAD_ANY : Int := -1

/-- Sentinel for yielding to the caller itself (thread.h, modelled from the
spec as a distinct negative value). -/
def THREAD_SELF : Int := -2

/-- Failure code: internal failure (thread.h, modelled from the spec). -/
def THREAD_FAILED : Int := -3

/-- Failure code: no runnable thread (thread.h, modelled from the spec). -/
def THREAD_NONE : Int := -4

/-- Failure code: capacity exhausted (thread.h, modelled from the spec). -/
def THREAD_NOMORE : Int := -5

/-- Failure code: out of memory (thread.h, modelled from the spec). -/
def THREAD_NOMEMORY : Int := -6

/-- Failure code: invalid target (thread.h, modelled from the spec). -/
def THREAD_INVALID : Int := -7

/-- Capacity of the thread control table (thread.h, modelled from the
spec: a fixed-capacity registry of thread control blocks). -/
def THREAD_MAX_THREADS : Nat := 1024

/-- Resumption point of a thread's saved ucontext.  A context initialized
by thread_create points at thread_stub (REG_RIP is set to thread_stub in
both A1/thread.c:144 and A2/thread.c:158); a context saved by getcontext
inside thread_yield/thread_sleep resumes just after that getcontext call. -/
inductive ResumePt where
  | stub
  | captured
deriving DecidableEq, Repr

/-- Thread control block (struct thread, A1/thread.c:20-39).  The TID and
state fields are carried directly; the stack pointer and the saved
ucontext are abstracted into the resume point; the next pointer is
represented by membership in the scheduling list or a wait queue.
States follow the comment at A1/thread.c:30-35: 0 unused, 1 active,
2 waiting (suspended after saving its context), 3 killed. -/
structure Thr where
  TID : Int
  state : Int
  resume : ResumePt
deriving DecidableEq, Repr

namespace A1

/-- Result of thread_yield (A1/thread.c:153-211): either an immediate
return to the caller with a value (error returns and the self round trip),
or a context switch, recording the value the caller's saved context will
return when resumed (the local want_tid at A1/thread.c:202), the thread
switched to, and the new scheduling list hanging off it. -/
inductive YieldRes where
  | ret (v : Int)
  | switch (savedRet : Int) (newCur : Thr) (newRest : List Thr)
deriving DecidableEq, Repr

/-- Caller as it is left by a suspension point: state set to 2
(A1/thread.c:205) with its context captured by getcontext
(A1/thread.c:192). -/
def suspend (t : Thr) : Thr := { t with state := 2, resume := .captured }

/-- Search loop of thread_create (A1/thread.c:109-124): new_tid starts at
0 and is incremented before each test, so candidates 1, 2, ... are tested
against the TIDs present in the scheduling list; reaching
THREAD_MAX_THREADS returns THREAD_NOMORE.  The fuel argument makes the
loop structurally recursive; fuel THREAD_MAX_THREADS is enough for every
run of the C loop. -/
def findTidAux (held : List Int) : Nat → Nat → Int
  | 0, _ => THREAD_NOMORE
  | fuel + 1, v =>
    if THREAD_MAX_THREADS ≤ v + 1 then THREAD_NOMORE
    else if ((v + 1 : Nat) : Int) ∈ held then findTidAux held fuel (v + 1)
    else ((v + 1 : Nat) : Int)

/-- thread_create (A1/thread.c:104-151).  The scheduling list is the
current thread followed by the ready chain rest; held identifiers are
scanned from that list (A1/thread.c:117-123).  tcbOK and stackOK are the
outcomes of the two mallocs (A1/thread.c:127 and 135); on either failure
the list is untouched (the TCB malloc'd at 127 is freed again at 137).
On success the new thread is appended at the end (add_to_end,
A1/thread.c:148) with state 1 and a context bootstrapped at thread_stub. -/
def thread_create (cur : Thr) (rest : List Thr) (tcbOK stackOK : Bool) :
    Int × List Thr :=
  let tid := findTidAux (cur.TID :: rest.map Thr.TID) THREAD_MAX_THREADS 0
  if tid = THREAD_NOMORE then (THREAD_NOMORE, rest)
  else if !tcbOK then (THREAD_NOMEMORY, rest)
  else if !stackOK then (THREAD_NOMEMORY, rest)
  else (tid, rest ++ [⟨tid, 1, .stub⟩])

/-- Scan of thread_yield's explicit-identifier branch (A1/thread.c:176-182):
starting from the ready chain it compares curr->next->TID, so the first
element of the list passed here is never matched by the caller (the head
of the ready queue was already handled by the first branch).  Returns the
prefix before the first match, the matched node, and the suffix after it. -/
def findSplit : List Thr → Int → Option (List Thr × Thr × List Thr)
  | [], _ => none
  | t :: ts, want =>
    if t.TID = want then some ([], t, ts)
    else
      match findSplit ts want with
      | none => none
      | some (pre, w, post) => some (t :: pre, w, post)

/-- thread_yield (A1/thread.c:153-211).  cur is the running thread
(current_thread), rest the ready chain hanging off it.  Branches follow
the source: THREAD_ANY or the ready-queue head's TID takes the head and
requeues the caller at the tail (A1/thread.c:158-165); THREAD_SELF or the
caller's own TID round-trips through setcontext on the caller's own
context and returns its TID (A1/thread.c:167-169 with 200-203); any other
identifier is searched strictly after the ready head (A1/thread.c:171-189),
failing with THREAD_INVALID when out of range, when the ready chain is
empty, or when not found; on success the target is moved to the front,
the caller appended at the tail, and the switch returns want_tid to the
suspended caller on resumption (A1/thread.c:202). -/
def thread_yield (cur : Thr) (rest : List Thr) (want : Int) : YieldRes :=
  if want = THREAD_ANY ∨ (rest ≠ [] ∧ (rest.map Thr.TID).head? = some want) then
    match rest with
    | [] => .ret THREAD_NONE
    | r :: rs => .switch r.TID r (rs ++ [suspend cur])
  else if want = THREAD_SELF ∨ want = cur.TID then
    .ret cur.TID
  else if want < 0 ∨ (THREAD_MAX_THREADS : Int) ≤ want ∨ rest = [] then
    .ret THREAD_INVALID
  else
    match rest with
    | [] => .ret THREAD_INVALID
    | r0 :: rtail =>
      match findSplit rtail want with
      | none => .ret THREAD_INVALID
      | some (pre, w, post) =>
        .switch want w ((r0 :: pre) ++ post ++ [suspend cur])

/-- Scan of thread_kill (A1/thread.c:240-247): walks the ready chain
(current_thread->next onward), sets the first node with the requested TID
to state 3, and reports the updated chain; none when the TID is absent. -/
def killScan : List Thr → Int → Option (List Thr)
  | [], _ => none
  | t :: ts, tid =>
    if t.TID = tid then some ({ t with state := 3 } :: ts)
    else
      match killScan ts tid with
      | none => none
      | some ts2 => some (t :: ts2)

/-- thread_kill (A1/thread.c:237-249).  Only the ready chain is scanned
(the scan starts at current_thread->next, so the caller itself is never a
match); on a match the node's state becomes 3 and the target TID is
returned, with no context switch; otherwise THREAD_INVALID. -/
def thread_kill (rest : List Thr) (tid : Int) : Int × List Thr :=
  match killScan rest tid with
  | none => (THREAD_INVALID, rest)
  | some rest2 => (tid, rest2)

/-- Control-flow abstraction of dispatching a thread, i.e. setcontext into
its saved context.  A context bootstrapped at thread_stub
(A1/thread.c:97-102) runs free_stuff and then unconditionally calls
thread_main(arg) - the stub contains no state check.  A context captured
by the getcontext in thread_yield (A1/thread.c:192) resumes at
A1/thread.c:194: after free_stuff, state 3 diverts into thread_exit(0)
before thread_yield returns to user code (A1/thread.c:196-198); otherwise
thread_yield returns and user code continues.  The function tells whether
user code runs when the thread is dispatched. -/
def dispatchRunsUserCode (t : Thr) : Bool :=
  match t.resume with
  | .stub => true
  | .captured => !(t.state = 3)

end A1

namespace A2

/-- Scheduler state for the array-based operations of A2/thread.c
(thread_create, thread_yield, thread_kill).  threadStates holds the state
field of each slot of struct thread threads[THREAD_MAX_THREADS]
(A2/thread.c:45); in that file threads[i].TID is always i, and stacks and
contexts are abstracted away.  ready is the ready_node queue of TIDs
headed by ready_head (A2/thread.c:64-69); cur the current thread's Tid
(A2/thread.c:44); intsOn the process-wide interrupt-enabled flag toggled
by interrupts_off/interrupts_set (A2/thread.c:136 etc.). -/
structure St where
  threadStates : List Int
  ready : List Int
  cur : Int
  intsOn : Bool
deriving DecidableEq, Repr

/-- Read of threads[i].state; a list of length THREAD_MAX_THREADS stands
for the fixed array, so in-range reads are List.getD with an irrelevant
default. -/
def stGet (sts : List Int) (i : Nat) : Int := sts.getD i 0

/-- Slot-search loop of thread_create (A2/thread.c:139-145): new_tid
starts at 0 and advances while threads[new_tid].state != 0; running past
the end of the array (new_tid == THREAD_MAX_THREADS, i.e. past the end of
the list standing for it) yields none, which the caller turns into
THREAD_NOMORE. -/
def findSlotAux : List Int → Nat → Option Nat
  | [], _ => none
  | s :: rest, i => if s = 0 then some i else findSlotAux rest (i + 1)

/-- thread_create (A2/thread.c:133-170).  interrupts_off saves the flag
and clears it (A2/thread.c:136); the capacity-exhausted return at
A2/thread.c:143 and the two THREAD_NOMEMORY returns (A2/thread.c:151 and
165) happen before the single interrupts_set(enabled) at A2/thread.c:168,
so only the success path restores the flag.  stackOK is the outcome of
the stack malloc369 (A2/thread.c:149): the slot's state was already set
to 1 at A2/thread.c:148 and is not reset on that failure.  enqOK is the
outcome of ready_enqueue's node allocation (A2/thread.c:162): that
failure path frees the stack and does reset the state to 0
(A2/thread.c:163-164). -/
def thread_create (s : St) (stackOK enqOK : Bool) : Int × St :=
  match findSlotAux s.threadStates 0 with
  | none => (THREAD_NOMORE, { s with intsOn := false })
  | some tid =>
    if !stackOK then
      (THREAD_NOMEMORY,
        { s with threadStates := s.threadStates.set tid 1, intsOn := false })
    else if !enqOK then
      (THREAD_NOMEMORY,
        { s with threadStates := (s.threadStates.set tid 1).set tid 0,
                 intsOn := false })
    else
      ((tid : Int),
        { s with threadStates := s.threadStates.set tid 1,
                 ready := s.ready ++ [(tid : Int)] })

/-- Result of thread_yield (A2/thread.c:172-232): an immediate return with
a value and the machine state at that return, or a context switch with
the value the suspended caller's context will return upon resumption
(want_tid, A2/thread.c:222) and the state at the setcontext. -/
inductive YieldRes where
  | ret (v : Int) (s : St)
  | switch (savedRet : Int) (s : St)
deriving DecidableEq, Repr

/-- Scan of thread_yield's explicit-identifier branch (A2/thread.c:194-200):
compares curr->next's tid starting from the ready head, so the head
itself is never matched here (the head's tid was already handled by the
first branch).  Returns the elements before and after the first match. -/
def findSplitI : List Int → Int → Option (List Int × List Int)
  | [], _ => none
  | t :: ts, want =>
    if t = want then some ([], ts)
    else
      match findSplitI ts want with
      | none => none
      | some (pre, post) => some (t :: pre, post)

/-- thread_yield (A2/thread.c:172-232).  interrupts_off at A2/thread.c:175;
the THREAD_NONE return (A2/thread.c:180) and the THREAD_INVALID returns
(A2/thread.c:191 and 199) do not call interrupts_set, so they leave the
flag cleared.  The self branch round-trips through the caller's own
context and restores the flag before returning want_tid
(A2/thread.c:219-223).  Switch branches dequeue the target, requeue the
caller's tid at the tail (ready_enqueue(thread_id())), mark the caller
state 2, and transfer to the target (A2/thread.c:225-227). -/
def thread_yield (s : St) (want : Int) : YieldRes :=
  if want = THREAD_ANY ∨ (s.ready ≠ [] ∧ s.ready.head? = some want) then
    match s.ready with
    | [] => .ret THREAD_NONE { s with intsOn := false }
    | r :: rs =>
      .switch r { s with ready := rs ++ [s.cur],
                         threadStates := s.threadStates.set s.cur.toNat 2,
                         cur := r, intsOn := false }
  else if want = THREAD_SELF ∨ want = s.cur then
    .ret s.cur s
  else if want < 0 ∨ (THREAD_MAX_THREADS : Int) ≤ want ∨ s.ready = [] ∨
      stGet s.threadStates want.toNat = 0 then
    .ret THREAD_INVALID { s with intsOn := false }
  else
    match s.ready with
    | [] => .ret THREAD_INVALID { s with intsOn := false }
    | r0 :: rtail =>
      match findSplitI rtail want with
      | none => .ret THREAD_INVALID { s with intsOn := false }
      | some (pre, post) =>
        .switch want { s with ready := (r0 :: pre) ++ post ++ [s.cur],
                              threadStates := s.threadStates.set s.cur.toNat 2,
                              cur := want, intsOn := false }

/-- thread_kill (A2/thread.c:252-263): under the interrupt mask, a target
equal to the caller's tid, out of the unsigned range, or whose slot state
is 0 fails with THREAD_INVALID; otherwise the slot's state is set to 0
and the target tid returned.  Both paths restore the flag
(A2/thread.c:257 and 261), and neither switches context. -/
def thread_kill (s : St) (tid : Int) : Int × St :=
  if tid = s.cur ∨ tid < 0 ∨ (THREAD_MAX_THREADS : Int) ≤ tid ∨
      stGet s.threadStates tid.toNat = 0 then
    (THREAD_INVALID, s)
  else
    (tid, { s with threadStates := s.threadStates.set tid.toNat 0 })

/-- Result of thread_sleep (A2/thread.c:291-330): an immediate error
return leaving the wait queue, the caller, and the ready chain untouched,
or a context switch recording the value the suspended caller will return
upon resumption (ret = new_head->TID, A2/thread.c:310 and 322), the wait
queue with the caller appended, the thread switched to, and the remaining
ready chain. -/
inductive SleepRes where
  | ret (v : Int) (queue : Option (List Thr)) (cur : Thr) (rest : List Thr)
  | switch (savedRet : Int) (queue : List Thr) (newCur : Thr) (newRest : List Thr)
deriving DecidableEq, Repr

/-- thread_sleep (A2/thread.c:291-330).  This function (like
thread_wakeup) operates on the linked-list representation in which
current_thread is a struct thread pointer heading the ready chain and a
wait queue is the chain hanging off queue->head (A2/thread.c:11-13, 46,
298-307): cur is the running thread, rest the ready chain.  A NULL queue
fails with THREAD_INVALID before anything else (A2/thread.c:294-296); an
empty ready chain fails with THREAD_NONE with the caller not enqueued
(A2/thread.c:298-302); otherwise the caller is detached, appended at the
queue's tail (A2/thread.c:303-308), marked state 2, and control moves to
the ready head, whose TID the caller receives on resumption. -/
def thread_sleep (queue : Option (List Thr)) (cur : Thr) (rest : List Thr) :
    SleepRes :=
  match queue with
  | none => .ret THREAD_INVALID none cur rest
  | some q =>
    match rest with
    | [] => .ret THREAD_NONE (some q) cur []
    | r :: rs => .switch r.TID (q ++ [A1.suspend cur]) r rs

/-- thread_wakeup (A2/thread.c:334-361), on the same linked-list
representation as thread_sleep; ready is the scheduling list headed by
the current thread.  A NULL or empty queue returns 0 (A2/thread.c:337-339).
With all set, the whole chain at queue->head is spliced onto the end of
the ready list and its length returned (A2/thread.c:343-352) - queue->head
is never cleared, so the returned queue is unchanged.  Otherwise the head
alone is detached, appended to the ready list, the queue advanced, and 1
returned (A2/thread.c:353-360).  Neither mode switches context. -/
def thread_wakeup (queue : Option (List Thr)) (all : Bool) (ready : List Thr) :
    Int × List Thr × Option (List Thr) :=
  match queue with
  | none => (0, ready, none)
  | some [] => (0, ready, some [])
  | some (q0 :: qrest) =>
    if all then
      (((q0 :: qrest).length : Int), ready ++ (q0 :: qrest), some (q0 :: qrest))
    else
      (1, ready ++ [q0], some qrest)

/-- Fatal outcomes: a failed assert aborts the process. -/
inductive Fatal where
  | assertFail
deriving DecidableEq, Repr

/-- wait_queue_destroy (A2/thread.c:283-288): asserts wq->head == NULL and
then frees the queue; a non-empty queue is an assertion failure, not an
error return. -/
def wait_queue_destroy (wq : List Thr) : Except Fatal Unit :=
  if wq = [] then .ok () else .error .assertFail

end A2

/-! Helper lemmas about the search loops. -/

/-- Identifier search of A1's thread_create returns the first candidate
strictly between v and THREAD_MAX_THREADS that is not held, given enough
fuel. -/
lemma findTidAux_eq (held : List Int) :
    ∀ (fuel v n : Nat), v < n → n < THREAD_MAX_THREADS → n ≤ v + fuel →
      ((n : Int) ∉ held) → (∀ m : Nat, v < m → m < n → ((m : Int) ∈ held)) →
      A1.findTidAux held fuel v = (n : Int) := by
  intro fuel
  induction fuel with
  | zero => intro v n h1 _ h3 _ _; omega
  | succ fuel ih =>
    intro v n h1 h2 h3 h4 h5
    have hM : THREAD_MAX_THREADS = 1024 := rfl
    rw [A1.findTidAux]
    rw [if_neg (by omega : ¬ THREAD_MAX_THREADS ≤ v + 1)]
    by_cases hmem : ((v + 1 : Nat) : Int) ∈ held
    · rw [if_pos hmem]
      have hne : v + 1 ≠ n := fun he => h4 (he ▸ hmem)
      exact ih (v + 1) n (by omega) h2 (by omega) h4
        (fun m hm1 hm2 => h5 m (by omega) hm2)
    · rw [if_neg hmem]
      have he : n = v + 1 := by
        by_contra hne
        exact hmem (h5 (v + 1) (by omega) (by omega))
      rw [he]

/-- Identifier search of A1's thread_create fails with THREAD_NOMORE when
every candidate above v is held. -/
lemma findTidAux_none (held : List Int) :
    ∀ (fuel v : Nat),
      (∀ m : Nat, v < m → m < THREAD_MAX_THREADS → ((m : Int) ∈ held)) →
      A1.findTidAux held fuel v = THREAD_NOMORE := by
  intro fuel
  induction fuel with
  | zero => intro v _; rfl
  | succ fuel ih =>
    intro v h
    have hM : THREAD_MAX_THREADS = 1024 := rfl
    rw [A1.findTidAux]
    by_cases hb : THREAD_MAX_THREADS ≤ v + 1
    · rw [if_pos hb]
    · rw [if_neg hb, if_pos (h (v + 1) (by omega) (by omega))]
      exact ih (v + 1) (fun m h1 h2 => h m (by omega) h2)

/-- Identifier search of A1's thread_create only ever returns
THREAD_NOMORE or an unheld identifier in the valid range. -/
lemma findTidAux_sound (held : List Int) :
    ∀ (fuel v : Nat),
      A1.findTidAux held fuel v = THREAD_NOMORE ∨
        (A1.findTidAux held fuel v ∉ held ∧ 1 ≤ A1.findTidAux held fuel v ∧
          A1.findTidAux held fuel v < (THREAD_MAX_THREADS : Int)) := by
  intro fuel
  induction fuel with
  | zero => intro v; left; rfl
  | succ fuel ih =>
    intro v
    have hM : THREAD_MAX_THREADS = 1024 := rfl
    rw [A1.findTidAux]
    by_cases hb : THREAD_MAX_THREADS ≤ v + 1
    · left; rw [if_pos hb]
    · rw [if_neg hb]
      by_cases hmem : ((v + 1 : Nat) : Int) ∈ held
      · rw [if_pos hmem]; exact ih (v + 1)
      · right
        rw [if_neg hmem]
        refine ⟨hmem, by omega, ?_⟩
        rw [show THREAD_MAX_THREADS = 1024 from rfl]
        omega

/-- Slot search of A2's thread_create finds the first index whose state
is 0. -/
lemma findSlotAux_spec :
    ∀ (sts : List Int) (k i : Nat),
      (∀ j, j < i → sts.get? j ≠ some 0) → sts.get? i = some 0 →
      A2.findSlotAux sts k = some (k + i) := by
  intro sts
  induction sts with
  | nil => intro k i _ hi; simp at hi
  | cons s rest ih =>
    intro k i hlt hi
    by_cases hs : s = 0
    · have hi0 : i = 0 := by
        by_contra h0
        exact hlt 0 (Nat.pos_of_ne_zero h0) (by simp [hs])
      subst hi0
      simp [A2.findSlotAux, hs]
    · match i with
      | 0 => simp at hi; exact absurd hi hs
      | i + 1 =>
        have h2 := ih (k + 1) i
          (fun j hj => by
            have := hlt (j + 1) (by omega)
            simpa using this)
          (by simpa using hi)
        have h3 : k + 1 + i = k + (i + 1) := by omega
        simp [A2.findSlotAux, hs, h2, h3]

/-- Slot search of A2's thread_create runs off the end when no slot state
is 0. -/
lemma findSlotAux_none :
    ∀ (sts : List Int) (k : Nat),
      (∀ j, j < sts.length → sts.get? j ≠ some 0) →
      A2.findSlotAux sts k = none := by
  intro sts
  induction sts with
  | nil => intro k _; rfl
  | cons s rest ih =>
    intro k h
    have hs : s ≠ 0 := by
      have := h 0 (by simp)
      simpa using this
    simp [A2.findSlotAux, hs]
    exact ih (k + 1) (fun j hj => by
      have := h (j + 1) (by simpa using Nat.succ_lt_succ hj)
      simpa using this)

/-- Slot search of A2's thread_create only returns indices whose state
is 0. -/
lemma findSlotAux_sound :
    ∀ (sts : List Int) (k j : Nat), A2.findSlotAux sts k = some j →
      k ≤ j ∧ sts.get? (j - k) = some 0 := by
  intro sts
  induction sts with
  | nil => intro k j h; simp [A2.findSlotAux] at h
  | cons s rest ih =>
    intro k j h
    by_cases hs : s = 0
    · simp [A2.findSlotAux, hs] at h
      subst h
      exact ⟨le_refl _, by simp [hs]⟩
    · simp [A2.findSlotAux, hs] at h
      obtain ⟨h1, h2⟩ := ih (k + 1) j h
      refine ⟨by omega, ?_⟩
      have h3 : j - k = (j - (k + 1)) + 1 := by omega
      rw [h3]
      simpa using h2

/-- Kill scan: an absent TID is never found. -/
lemma killScan_not_mem :
    ∀ (l : List Thr) (tid : Int), tid ∉ l.map Thr.TID →
      A1.killScan l tid = none := by
  intro l
  induction l with
  | nil => intro tid _; rfl
  | cons t ts ih =>
    intro tid h
    simp only [List.map_cons, List.mem_cons, not_or] at h
    have h1 : ¬ (t.TID = tid) := fun he => h.1 he.symm
    simp [A1.killScan, h1, ih tid h.2]

/-- Kill scan: the first occurrence of a TID is marked state 3 in place. -/
lemma killScan_append (w : Thr) :
    ∀ (pre post : List Thr), (∀ t ∈ pre, t.TID ≠ w.TID) →
      A1.killScan (pre ++ w :: post) w.TID =
        some (pre ++ { w with state := 3 } :: post) := by
  intro pre
  induction pre with
  | nil => intro post _; simp [A1.killScan]
  | cons t ts ih =>
    intro post h
    have ht : ¬ (t.TID = w.TID) := h t (by simp)
    simp [A1.killScan, ht, ih post (fun x hx => h x (by simp [hx]))]

/-! Branch-level characterizations of thread_yield. -/

/-- Kill (A1): a TID absent from the ready chain fails with
THREAD_INVALID and changes nothing. -/
lemma a1_kill_invalid (rest : List Thr) (tid : Int) (h : tid ∉ rest.map Thr.TID) :
    A1.thread_kill rest tid = (THREAD_INVALID, rest) := by
  simp [A1.thread_kill, killScan_not_mem rest tid h]

/-- Kill (A1): the first node carrying the requested TID is set to state 3
and the TID returned, with no context switch. -/
lemma a1_kill_success (w : Thr) (pre post : List Thr)
    (hpre : ∀ t ∈ pre, t.TID ≠ w.TID) :
    A1.thread_kill (pre ++ w :: post) w.TID =
      (w.TID, pre ++ { w with state := 3 } :: post) := by
  simp [A1.thread_kill, killScan_append w pre post hpre]

/-- Kill (A2): the THREAD_INVALID result happens exactly for the caller's
own tid, an out-of-range tid, or a slot whose state is 0. -/
lemma a2_kill_invalid_iff (s : A2.St) (tid : Int) :
    (A2.thread_kill s tid).1 = THREAD_INVALID ↔
      (tid = s.cur ∨ tid < 0 ∨ (THREAD_MAX_THREADS : Int) ≤ tid ∨
        A2.stGet s.threadStates tid.toNat = 0) := by
  by_cases h : tid = s.cur ∨ tid < 0 ∨ (THREAD_MAX_THREADS : Int) ≤ tid ∨
      A2.stGet s.threadStates tid.toNat = 0
  · simp [A2.thread_kill, h]
  · simp only [A2.thread_kill, if_neg h]
    push_neg at h
    constructor
    · intro he
      rw [he] at h
      exact absurd h.2.1 (by decide)
    · intro hc
      exact absurd hc (by push_neg; exact h)

/-- Kill (A2): a valid target's slot state is set to 0 and the tid
returned, with no context switch. -/
lemma a2_kill_success (s : A2.St) (tid : Int)
    (h : ¬ (tid = s.cur ∨ tid < 0 ∨ (THREAD_MAX_THREADS : Int) ≤ tid ∨
      A2.stGet s.threadStates tid.toNat = 0)) :
    A2.thread_kill s tid =
      (tid, { s with threadStates := s.threadStates.set tid.toNat 0 }) := by
  simp [A2.thread_kill, h]

/-! Branch-level characterizations of thread_create. -/

/-- Create (A1): when some identifier in [1, THREAD_MAX_THREADS) is free,
the smallest such identifier is allocated and the new thread appended to
the ready chain with state 1 and a stub context. -/
lemma a1_create_smallest (cur : Thr) (rest : List Thr) (n : Nat)
    (h1 : 1 ≤ n) (h2 : n < THREAD_MAX_THREADS)
    (h3 : ((n : Int)) ∉ cur.TID :: rest.map Thr.TID)
    (h4 : ∀ m : Nat, 1 ≤ m → m < n → ((m : Int)) ∈ cur.TID :: rest.map Thr.TID) :
    A1.thread_create cur rest true true =
      ((n : Int), rest ++ [⟨(n : Int), 1, .stub⟩]) := by
  have he : A1.findTidAux (cur.TID :: rest.map Thr.TID) THREAD_MAX_THREADS 0 = (n : Int) :=
    findTidAux_eq _ THREAD_MAX_THREADS 0 n (by omega) h2 (by omega) h3
      (fun m hm1 hm2 => h4 m (by omega) hm2)
  have hne : ((n : Int)) ≠ THREAD_NOMORE := by
    intro hc
    have hge : (1 : Int) ≤ (n : Int) := by exact_mod_cast h1
    rw [hc] at hge
    exact absurd hge (by decide)
  simp [A1.thread_create, he, hne]

/-- Create (A1): when every identifier in [1, THREAD_MAX_THREADS) is held,
the call fails with THREAD_NOMORE and changes nothing. -/
lemma a1_create_full (cur : Thr) (rest : List Thr) (a b : Bool)
    (h : ∀ m : Nat, 1 ≤ m → m < THREAD_MAX_THREADS →
      ((m : Int)) ∈ cur.TID :: rest.map Thr.TID) :
    A1.thread_create cur rest a b = (THREAD_NOMORE, rest) := by
  have he := findTidAux_none (cur.TID :: rest.map Thr.TID) THREAD_MAX_THREADS 0
    (fun m hm1 hm2 => h m (by omega) hm2)
  simp [A1.thread_create, he]

/-- Create (A2): the lowest slot index with state 0 is allocated, marked
state 1, and its tid enqueued at the ready-queue tail. -/
lemma a2_create_slot (s : A2.St) (i : Nat)
    (hlt : ∀ j, j < i → s.threadStates.get? j ≠ some 0)
    (hi : s.threadStates.get? i = some 0) :
    A2.thread_create s true true =
      ((i : Int), { s with threadStates := s.threadStates.set i 1,
                           ready := s.ready ++ [(i : Int)] }) := by
  have he : A2.findSlotAux s.threadStates 0 = some i := by
    have hsp := findSlotAux_spec s.threadStates 0 i hlt hi
    simpa using hsp
  simp [A2.thread_create, he]

/-- Create (A2): with no slot in state 0 the call fails with
THREAD_NOMORE (and leaves interrupts disabled). -/
lemma a2_create_full (s : A2.St) (a b : Bool)
    (h : ∀ j, j < s.threadStates.length → s.threadStates.get? j ≠ some 0) :
    A2.thread_create s a b = (THREAD_NOMORE, { s with intsOn := false }) := by
  have he := findSlotAux_none s.threadStates 0 h
  simp [A2.thread_create, he]

/-- Create (A2): a successfully returned identifier always names a slot
whose state was 0 at the call. -/
lemma a2_create_fresh_slot (s : A2.St) (a b : Bool)
    (h : 0 ≤ (A2.thread_create s a b).1) :
    s.threadStates.get? (A2.thread_create s a b).1.toNat = some 0 := by
  rcases hfs : A2.findSlotAux s.threadStates 0 with _ | tid
  · exfalso
    have hv : (A2.thread_create s a b).1 = THREAD_NOMORE := by
      simp [A2.thread_create, hfs]
    rw [hv] at h
    exact absurd h (by decide)
  · obtain ⟨-, hget⟩ := findSlotAux_sound s.threadStates 0 tid hfs
    have hv : (A2.thread_create s a b).1 = THREAD_NOMEMORY ∨
        (A2.thread_create s a b).1 = (tid : Int) := by
      simp only [A2.thread_create, hfs]
      cases a <;> cases b <;> simp
    rcases hv with hv | hv
    · rw [hv] at h
      exact absurd h (by decide)
    · rw [hv]
      simpa using hget

/-- Create (A1): a successfully returned identifier was not held by any
thread in the scheduling list at the call. -/
lemma a1_create_unheld (cur : Thr) (rest : List Thr) (a b : Bool)
    (h : 0 ≤ (A1.thread_create cur rest a b).1) :
    (A1.thread_create cur rest a b).1 ∉ cur.TID :: rest.map Thr.TID := by
  rcases findTidAux_sound (cur.TID :: rest.map Thr.TID) THREAD_MAX_THREADS 0 with
    hs | ⟨hmem, h1, h2⟩
  · have hv : (A1.thread_create cur rest a b).1 = THREAD_NOMORE := by
      simp [A1.thread_create, hs]
    rw [hv] at h
    exact absurd h (by decide)
  · have hne : A1.findTidAux (cur.TID :: rest.map Thr.TID) THREAD_MAX_THREADS 0 ≠
        THREAD_NOMORE := by
      intro hc
      rw [hc] at h1
      exact absurd h1 (by decide)
    have hv : (A1.thread_create cur rest a b).1 =
        A1.findTidAux (cur.TID :: rest.map Thr.TID) THREAD_MAX_THREADS 0 ∨
        (A1.thread_create cur rest a b).1 = THREAD_NOMEMORY := by
      simp only [A1.thread_create, if_neg hne]
      cases a <;> cases b <;> simp
    rcases hv with hv | hv
    · rw [hv]; exact hmem
    · rw [hv] at h
      exact absurd h (by decide)

/-! Claim theorems. -/

set_option maxRecDepth 400000 in
/-- C1: the claim states that every scheduler-mutating operation restores
the interrupt-enabled flag on every exit path, including error returns.
The A2 code violates this: thread_create's capacity-exhausted and
out-of-memory returns and thread_yield's no-runnable-thread and
invalid-target returns all happen after interrupts_off without a matching
interrupts_set, so each of the four error paths below returns with the
flag cleared although it was set on entry. -/
theorem a2_error_paths_leave_interrupts_disabled :
    (A2.thread_create ⟨List.replicate 1024 1, [], 0, true⟩ true true =
      (THREAD_NOMORE, ⟨List.replicate 1024 1, [], 0, false⟩)) ∧
    ((A2.thread_create ⟨(List.replicate 1024 1).set 3 0, [], 0, true⟩ false true).2.intsOn
      = false) ∧
    (A2.thread_yield ⟨List.replicate 1024 1, [], 0, true⟩ THREAD_ANY =
      .ret THREAD_NONE ⟨List.replicate 1024 1, [], 0, false⟩) ∧
    (A2.thread_yield ⟨List.replicate 1024 1, [5], 0, true⟩ 7 =
      .ret THREAD_INVALID ⟨List.replicate 1024 1, [5], 0, false⟩) := by
  exact ⟨by decide, by decide, by decide, by decide⟩

set_option maxRecDepth 400000 in
/-- C2: the claim states that every failing call leaves the scheduler
state unchanged, in particular that a thread_create whose stack
allocation fails leaves the chosen slot FREE.  A1's stack-failure path is
indeed a no-op (first conjunct), but A2's thread_create sets the chosen
slot's state to 1 before allocating the stack and does not reset it on
allocation failure: the call below returns THREAD_NOMEMORY with slot 1
left in state 1 instead of 0. -/
theorem a2_create_stack_failure_leaves_slot_active :
    (A1.thread_create ⟨0, 1, .captured⟩ [] true false = (THREAD_NOMEMORY, [])) ∧
    (A2.thread_create ⟨(List.replicate 1024 1).set 1 0, [], 0, true⟩ false true =
      (THREAD_NOMEMORY, ⟨List.replicate 1024 1, [], 0, false⟩)) ∧
    (A2.stGet
      (A2.thread_create ⟨(List.replicate 1024 1).set 1 0, [], 0, true⟩ false true).2.threadStates
      1 = 1) := by
  exact ⟨by decide, by decide, by decide⟩

/-- C3: the claim states that a thread killed while READY never runs user
code when next dispatched, including a freshly created thread.  The
redirect exists only at the getcontext resumption point inside
thread_yield (last conjunct: a captured context with state 3 does not run
user code); thread_stub has no state check, so a freshly created thread
whose context still points at the stub (first two conjuncts: the kill
succeeds, and yield(ANY) then dispatches it) executes its entry function
despite state 3 (third conjunct). -/
theorem a1_killed_fresh_thread_runs_user_code :
    (A1.thread_kill [⟨1, 1, .stub⟩] 1 = (1, [⟨1, 3, .stub⟩])) ∧
    (A1.thread_yield ⟨0, 1, .captured⟩ [⟨1, 3, .stub⟩] THREAD_ANY =
      .switch 1 ⟨1, 3, .stub⟩ [⟨0, 2, .captured⟩]) ∧
    (A1.dispatchRunsUserCode ⟨1, 3, .stub⟩ = true) ∧
    (A1.dispatchRunsUserCode ⟨1, 3, .captured⟩ = false) := by
  decide

/-- C4 counterexample: the claim states thread_kill fails with
invalid-target on an already-dead (previously killed) thread.  In A1 a
thread already in state 3 but still queued is killed again successfully:
the call returns the target id 1, not THREAD_INVALID. -/
theorem a1_kill_already_killed_succeeds :
    A1.thread_kill [⟨1, 3, .captured⟩] 1 = (1, [⟨1, 3, .captured⟩]) ∧
    (A1.thread_kill [⟨1, 3, .captured⟩] 1).1 ≠ THREAD_INVALID := by
  decide

/-- C4 (amended): thread_kill fails with THREAD_INVALID exactly when the
target does not name a killable thread - in A1, when the tid is absent
from the ready chain (which excludes the caller and fully exited
threads, but an already-killed queued thread is killed again
successfully); in A2, exactly when the tid is the caller's own, out of
range, or its slot state is 0.  On success the target is marked (state 3
in A1, slot state 0 in A2) and its id returned, with no context
switch. -/
theorem thread_kill_characterization :
    (∀ (rest : List Thr) (tid : Int), tid ∉ rest.map Thr.TID →
      A1.thread_kill rest tid = (THREAD_INVALID, rest)) ∧
    (∀ (w : Thr) (pre post : List Thr), (∀ t ∈ pre, t.TID ≠ w.TID) →
      A1.thread_kill (pre ++ w :: post) w.TID =
        (w.TID, pre ++ { w with state := 3 } :: post)) ∧
    (∀ (s : A2.St) (tid : Int),
      (A2.thread_kill s tid).1 = THREAD_INVALID ↔
        (tid = s.cur ∨ tid < 0 ∨ (THREAD_MAX_THREADS : Int) ≤ tid ∨
          A2.stGet s.threadStates tid.toNat = 0)) ∧
    (∀ (s : A2.St) (tid : Int),
      ¬ (tid = s.cur ∨ tid < 0 ∨ (THREAD_MAX_THREADS : Int) ≤ tid ∨
        A2.stGet s.threadStates tid.toNat = 0) →
      A2.thread_kill s tid =
        (tid, { s with threadStates := s.threadStates.set tid.toNat 0 })) :=
  ⟨a1_kill_invalid, a1_kill_success, a2_kill_invalid_iff, a2_kill_success⟩

/-- C4 witness: killing an unknown id on an empty ready chain fails with
THREAD_INVALID. -/
theorem thread_kill_characterization_witness :
    A1.thread_kill [] 5 = (THREAD_INVALID, []) :=
  thread_kill_characterization.1 [] 5 (by decide)

set_option maxRecDepth 400000 in
/-- C5 counterexample: the claim states thread_create returns the
smallest identifier not held by any live thread, and that identifiers are
reused only after full reclamation.  Both parts fail.  In A1, with only
thread 5 alive, identifier 0 is unheld but create returns 1 (its search
loop starts at 1).  In A2, killing queued thread 1 frees its slot without
dequeuing it or reclaiming its stack, so the very next create returns 1
again while the old tid 1 still sits in the ready queue, which then holds
1 twice. -/
theorem thread_create_id_counterexample :
    ((A1.thread_create ⟨5, 1, .captured⟩ [] true true).1 = 1 ∧
      (0 : Int) ∉ (⟨5, 1, .captured⟩ : Thr).TID :: ([] : List Thr).map Thr.TID ∧
      (A1.thread_create ⟨5, 1, .captured⟩ [] true true).1 ≠ 0) ∧
    ((A2.thread_kill ⟨((List.replicate 1024 0).set 0 1).set 1 2, [1], 0, true⟩ 1).2.ready
        = [1] ∧
      (A2.thread_create
        (A2.thread_kill ⟨((List.replicate 1024 0).set 0 1).set 1 2, [1], 0, true⟩ 1).2
        true true).1 = 1 ∧
      (A2.thread_create
        (A2.thread_kill ⟨((List.replicate 1024 0).set 0 1).set 1 2, [1], 0, true⟩ 1).2
        true true).2.ready = [1, 1]) := by
  exact ⟨by decide, by decide, by decide, by decide⟩

/-- C5 (amended): A1's thread_create returns the smallest identifier at
least 1 that is not currently in the scheduling list (identifier 0, the
initial thread's, is never returned), and fails with THREAD_NOMORE when
identifiers 1 to THREAD_MAX_THREADS - 1 are all held; A2's thread_create
returns the lowest slot index whose state is 0 and fails with
THREAD_NOMORE when no slot state is 0; and a successful create only ever
returns an identifier whose slot state was 0 (A2) or that was unheld
(A1) at the call - rather than only after the previous holder was fully
reclaimed. -/
theorem thread_create_id_characterization :
    (∀ (cur : Thr) (rest : List Thr) (n : Nat), 1 ≤ n → n < THREAD_MAX_THREADS →
      ((n : Int)) ∉ cur.TID :: rest.map Thr.TID →
      (∀ m : Nat, 1 ≤ m → m < n → ((m : Int)) ∈ cur.TID :: rest.map Thr.TID) →
      A1.thread_create cur rest true true =
        ((n : Int), rest ++ [⟨(n : Int), 1, .stub⟩])) ∧
    (∀ (cur : Thr) (rest : List Thr) (a b : Bool),
      (∀ m : Nat, 1 ≤ m → m < THREAD_MAX_THREADS →
        ((m : Int)) ∈ cur.TID :: rest.map Thr.TID) →
      A1.thread_create cur rest a b = (THREAD_NOMORE, rest)) ∧
    (∀ (s : A2.St) (i : Nat),
      (∀ j, j < i → s.threadStates.get? j ≠ some 0) →
      s.threadStates.get? i = some 0 →
      A2.thread_create s true true =
        ((i : Int), { s with threadStates := s.threadStates.set i 1,
                             ready := s.ready ++ [(i : Int)] })) ∧
    (∀ (s : A2.St) (a b : Bool),
      (∀ j, j < s.threadStates.length → s.threadStates.get? j ≠ some 0) →
      A2.thread_create s a b = (THREAD_NOMORE, { s with intsOn := false })) ∧
    (∀ (s : A2.St) (a b : Bool), 0 ≤ (A2.thread_create s a b).1 →
      s.threadStates.get? (A2.thread_create s a b).1.toNat = some 0) ∧
    (∀ (cur : Thr) (rest : List Thr) (a b : Bool),
      0 ≤ (A1.thread_create cur rest a b).1 →
      (A1.thread_create cur rest a b).1 ∉ cur.TID :: rest.map Thr.TID) :=
  ⟨a1_create_smallest, a1_create_full, a2_create_slot, a2_create_full,
   a2_create_fresh_slot, a1_create_unheld⟩

/-- C5 witness: with only the initial thread 0 alive, A1's create
allocates identifier 1 and appends the new thread. -/
theorem thread_create_id_characterization_witness :
    A1.thread_create ⟨0, 1, .captured⟩ [] true true = (1, [⟨1, 1, .stub⟩]) :=
  thread_create_id_characterization.1 ⟨0, 1, .captured⟩ [] 1 (by decide)
    (by decide) (by decide) (by intro m h1 h2; omega)

/-- C7: the claim states wakeup(all) moves all k threads and leaves the
wait queue empty.  The code moves the whole chain to the ready list and
returns its length, but never clears queue->head: waking the one-element
queue below returns 1 and moves the thread, yet the returned queue still
holds that thread (second conjunct), instead of being empty.  The third
and fourth conjuncts document the mode=one and empty-queue behavior. -/
theorem a2_wakeup_all_leaves_queue_nonempty :
    (A2.thread_wakeup (some [⟨2, 2, .captured⟩]) true [⟨0, 1, .captured⟩] =
      (1, [⟨0, 1, .captured⟩, ⟨2, 2, .captured⟩], some [⟨2, 2, .captured⟩])) ∧
    ((A2.thread_wakeup (some [⟨2, 2, .captured⟩]) true [⟨0, 1, .captured⟩]).2.2 ≠
      some []) ∧
    (A2.thread_wakeup (some [⟨2, 2, .captured⟩, ⟨3, 2, .captured⟩]) false
        [⟨0, 1, .captured⟩] =
      (1, [⟨0, 1, .captured⟩, ⟨2, 2, .captured⟩], some [⟨3, 2, .captured⟩])) ∧
    (A2.thread_wakeup (some []) true [⟨0, 1, .captured⟩] =
      (0, [⟨0, 1, .captured⟩], some [])) := by
  decide

/-- C8: thread_sleep on a NULL queue fails with THREAD_INVALID; on a valid
queue with no other ready thread it fails with THREAD_NONE, leaving the
queue, the caller, and the ready chain untouched (the caller keeps
running and is not enqueued); otherwise the caller is appended at the
queue's tail, control switches to the ready head, and the caller's
resumption value is that thread's TID. -/
theorem a2_thread_sleep_spec :
    (∀ (cur : Thr) (rest : List Thr),
      A2.thread_sleep none cur rest = .ret THREAD_INVALID none cur rest) ∧
    (∀ (q : List Thr) (cur : Thr),
      A2.thread_sleep (some q) cur [] = .ret THREAD_NONE (some q) cur []) ∧
    (∀ (q : List Thr) (cur r : Thr) (rs : List Thr),
      A2.thread_sleep (some q) cur (r :: rs) =
        .switch r.TID (q ++ [A1.suspend cur]) r rs) :=
  ⟨fun _ _ => rfl, fun _ _ => rfl, fun _ _ _ _ => rfl⟩

/-- C9: yielding to the caller's own identifier (not the THREAD_SELF
sentinel) succeeds and behaves exactly as yield with THREAD_SELF - the
caller keeps running and the call returns the caller's own id - in both
A1 and A2, even though the running caller is not present in the ready
queue. -/
theorem yield_own_tid_behaves_as_self :
    (∀ (cur : Thr) (rest : List Thr), 0 ≤ cur.TID →
      cur.TID ∉ rest.map Thr.TID → THREAD_SELF ∉ rest.map Thr.TID →
      A1.thread_yield cur rest cur.TID = A1.thread_yield cur rest THREAD_SELF ∧
      A1.thread_yield cur rest cur.TID = .ret cur.TID) ∧
    (∀ s : A2.St, 0 ≤ s.cur → s.cur ∉ s.ready → THREAD_SELF ∉ s.ready →
      A2.thread_yield s s.cur = A2.thread_yield s THREAD_SELF ∧
      A2.thread_yield s s.cur = .ret s.cur s) := by
  constructor
  · intro cur rest h0 hmem hself
    have hb1 : ¬ (cur.TID = THREAD_ANY ∨
        (rest ≠ [] ∧ (rest.map Thr.TID).head? = some cur.TID)) := by
      rintro (he | ⟨-, hh⟩)
      · rw [he] at h0; exact absurd h0 (by decide)
      · exact hmem (List.mem_of_mem_head? (Option.mem_def.mpr hh))
    have hb2 : ¬ (THREAD_SELF = THREAD_ANY ∨
        (rest ≠ [] ∧ (rest.map Thr.TID).head? = some THREAD_SELF)) := by
      rintro (he | ⟨-, hh⟩)
      · exact absurd he (by decide)
      · exact hself (List.mem_of_mem_head? (Option.mem_def.mpr hh))
    have hy1 : A1.thread_yield cur rest cur.TID = .ret cur.TID := by
      simp only [A1.thread_yield]
      simp
      rintro (he | ⟨hne, a, ha, haT⟩)
      · rw [he] at h0; exact absurd h0 (by decide)
      · exact absurd (haT ▸ List.mem_map_of_mem Thr.TID
          (List.mem_of_mem_head? (Option.mem_def.mpr ha))) hmem
    have hy2 : A1.thread_yield cur rest THREAD_SELF = .ret cur.TID := by
      simp only [A1.thread_yield]
      simp
      rintro (he | ⟨hne, a, ha, haT⟩)
      · exact absurd he (by decide)
      · exact absurd (haT ▸ List.mem_map_of_mem Thr.TID
          (List.mem_of_mem_head? (Option.mem_def.mpr ha))) hself
    exact ⟨hy1.trans hy2.symm, hy1⟩
  · intro s h0 hmem hself
    have hb1 : ¬ (s.cur = THREAD_ANY ∨
        (s.ready ≠ [] ∧ s.ready.head? = some s.cur)) := by
      rintro (he | ⟨-, hh⟩)
      · rw [he] at h0; exact absurd h0 (by decide)
      · exact hmem (List.mem_of_mem_head? (Option.mem_def.mpr hh))
    have hb2 : ¬ (THREAD_SELF = THREAD_ANY ∨
        (s.ready ≠ [] ∧ s.ready.head? = some THREAD_SELF)) := by
      rintro (he | ⟨-, hh⟩)
      · exact absurd he (by decide)
      · exact hself (List.mem_of_mem_head? (Option.mem_def.mpr hh))
    have hy1 : A2.thread_yield s s.cur = .ret s.cur s := by
      simp only [A2.thread_yield]
      simp
      rintro (he | ⟨hne, hh⟩)
      · rw [he] at h0; exact absurd h0 (by decide)
      · exact absurd (List.mem_of_mem_head? (Option.mem_def.mpr hh)) hmem
    have hy2 : A2.thread_yield s THREAD_SELF = .ret s.cur s := by
      simp only [A2.thread_yield]
      simp
      rintro (he | ⟨hne, hh⟩)
      · exact absurd he (by decide)
      · exact absurd (List.mem_of_mem_head? (Option.mem_def.mpr hh)) hself
    exact ⟨hy1.trans hy2.symm, hy1⟩

/-- C9 witness: with current thread 3 and ready chain [1], yield(3)
returns 3 without switching. -/
theorem yield_own_tid_behaves_as_self_witness :
    A1.thread_yield ⟨3, 1, .captured⟩ [⟨1, 1, .captured⟩] 3 = .ret 3 :=
  ((yield_own_tid_behaves_as_self.1 ⟨3, 1, .captured⟩ [⟨1, 1, .captured⟩]
    (by decide) (by decide) (by decide)).2)

/-- C10: wait_queue_destroy requires an empty queue - destroying a queue
that still holds a blocked thread is a fatal assertion failure, not an
error return, while destroying an empty queue succeeds. -/
theorem wait_queue_destroy_requires_empty :
    (∀ (t : Thr) (q : List Thr),
      A2.wait_queue_destroy (t :: q) = .error .assertFail) ∧
    A2.wait_queue_destroy [] = .ok () := by
  constructor
  · intro t q; simp [A2.wait_queue_destroy]
  · rfl
